import Mathlib

/-!
# Risk Scoring Engine — a shallow embedding of `src/app.py`

This file embeds the Risk Scoring Engine of the FREDWorldBank app in Lean 4:
the country-code normalizer, the sector classifier, the FRED domestic sector
stress estimator, the World Bank country stress estimator, and the final
aggregation `RiskScore = BaseRisk + Macro_Adj + WB_CountryRisk`.

Modelling conventions:
* Python floats are modelled as exact rationals (`ℚ`); float rounding is not
  modelled.  `NaN` cells and "no data" results are modelled as `Option` with
  `none` standing for `NaN` / missing, matching how the code treats `NaN`
  (`pd.isna`, `dropna`, `fillna`, and NaN-propagation through arithmetic).
* The two network fetchers (`fredapi` and the World Bank HTTP endpoint) are
  external collaborators; they enter the embedding as function arguments:
  `String → Option (List (Option ℚ))` for a FRED series (with `none` for the
  `except`-path of a failed fetch) and `String → String → Option ℚ` for
  `wb_latest_value` (with `none` for its `np.nan` result).
* `pandas` sample standard deviations (`Series.std()`, `ddof = 1`) involve a
  real square root, which is not rational-computable.  Each standard deviation
  therefore enters as an explicit parameter `σ`, and every theorem whose
  conclusion depends on its value carries the characterizing hypotheses
  `0 ≤ σ` and `σ ^ 2 = sampleVar xs`; theorems that only need the
  `std == 0` / `pd.isna(std)` guards of the code hold for every value of `σ`.
* `sorted(set(...))` on country codes is modelled as `List.dedup` without the
  sort: kernel reduction of `String` ordering is not available, and neither
  the per-country stress values nor any claim depends on the row order, since
  the cross-sectional statistics are sums over the whole batch.
-/

/-! ## Basic numeric helpers (pandas mean / var / clip) -/

/-- Arithmetic mean of a list of rationals (`Series.mean()` over the
non-missing values; only ever applied to nonempty lists). -/
def meanQ (xs : List ℚ) : ℚ := xs.sum / (xs.length : ℚ)

/-- Sample variance with `ddof = 1`, the square of `Series.std()`.
Only ever referenced for lists of length ≥ 2. -/
def sampleVar (xs : List ℚ) : ℚ :=
  (xs.map (fun x => (x - meanQ xs) ^ 2)).sum / ((xs.length : ℚ) - 1)

/-- `max(min(x, hi), lo)` — the cap used both by `get_sector_stress`
(`max(min(stress, 3.0), -3.0)`) and by `Series.clip(-3, 3)`. -/
def clampQ (x lo hi : ℚ) : ℚ := max lo (min x hi)

/-! ## Python string helpers (`str.strip`, `str.upper`, `str.lower`)

Implemented on the character list underlying `String`; faithful to Python on
the ASCII data the app handles. -/

/-- `str.strip()`: drop leading and trailing whitespace. -/
def pyStrip (s : String) : String :=
  String.mk (((s.toList.dropWhile Char.isWhitespace).reverse.dropWhile
    Char.isWhitespace).reverse)

/-- `str.upper()` (ASCII). -/
def pyUpper (s : String) : String := String.mk (s.toList.map Char.toUpper)

/-- `str.lower()` (ASCII), used on country codes before the World Bank call. -/
def pyLower (s : String) : String := String.mk (s.toList.map Char.toLower)

/-! ## Country Normalizer (`normalize_country_code`, app.py lines 31–52) -/

/-- The `manual` alias table of `normalize_country_code`. -/
def manualAliases : List (String × String) :=
  [("US", "US"), ("USA", "US"), ("UNITED STATES", "US"),
   ("CHINA", "CN"), ("P.R. CHINA", "CN"),
   ("PEOPLE\x27S REPUBLIC OF CHINA", "CN"), ("PEOPLES REPUBLIC OF CHINA", "CN"),
   ("UK", "GB"), ("UNITED KINGDOM", "GB")]

/-- Association-list lookup by string key (`dict` access; keys are unique in
every table this file uses, so first-match equals the Python dict lookup). -/
def lookupS {α : Type} : List (String × α) → String → Option α
  | [], _ => none
  | (k, v) :: rest, c => if k = c then some v else lookupS rest c

/-- `normalize_country_code(val)`: `None`/NaN input propagates to `None`;
otherwise strip + upper-case, try the manual alias table, then accept the
string as-is only when it has exactly two characters. -/
def normalize_country_code (val : Option String) : Option String :=
  match val with
  | none => none
  | some v =>
    let s := pyUpper (pyStrip v)
    match lookupS manualAliases s with
    | some code => some code
    | none => if s.length = 2 then some s else none

/-! ## Sector Classifier (`sector_from_two_digit` / `infer_sector`,
app.py lines 232–281) -/

/-- `int(str(int(x)))[:2]` digit extraction, first stage: first two decimal
digits of a natural number.  Fuel-based structural recursion (the fuel `m`
dominates the number of divisions by 10) so the kernel can evaluate it. -/
def leadTwoAux : Nat → Nat → Nat
  | 0, m => m
  | fuel + 1, m => if m ≤ 99 then m else leadTwoAux fuel (m / 10)

/-- First (single) decimal digit of a natural number, same fuel pattern;
needed for the negative branch where Python keeps `"-d"`. -/
def leadOneAux : Nat → Nat → Nat
  | 0, m => m
  | fuel + 1, m => if m ≤ 9 then m else leadOneAux fuel (m / 10)

/-- `int(str(int(code))[:2])`: for a nonnegative integer, its first two
decimal digits; for a negative integer, Python slices `"-d..."` to `"-d"`,
i.e. minus the first digit of the absolute value. -/
def twoDigitOf (n : ℤ) : ℤ :=
  if 0 ≤ n then (leadTwoAux n.toNat n.toNat : ℤ)
  else -(leadOneAux (-n).toNat (-n).toNat : ℤ)

/-- `sector_from_two_digit(code2)`: the ordered, overlapping first-match rule
table, transcribed condition by condition from app.py lines 233–265. -/
def sector_from_two_digit (code2 : ℤ) : String :=
  if (1 ≤ code2 ∧ code2 ≤ 9) ∨ (10 ≤ code2 ∧ code2 ≤ 14) ∨
     (11 ≤ code2 ∧ code2 ≤ 21) then "Natural Resources & Mining"
  else if code2 = 22 then "Utilities"
  else if code2 = 23 ∨ (15 ≤ code2 ∧ code2 ≤ 17) then "Construction"
  else if (31 ≤ code2 ∧ code2 ≤ 33) ∨ (20 ≤ code2 ∧ code2 ≤ 39) then
    "Manufacturing"
  else if code2 = 42 ∨ (50 ≤ code2 ∧ code2 ≤ 51) then "Wholesale Trade"
  else if (44 ≤ code2 ∧ code2 ≤ 45) ∨ (52 ≤ code2 ∧ code2 ≤ 59) then
    "Retail Trade"
  else if 48 ≤ code2 ∧ code2 ≤ 49 then "Transportation & Warehousing"
  else if code2 = 51 ∨ code2 = 48 then "Information"
  else if code2 = 52 ∨ (60 ≤ code2 ∧ code2 ≤ 67) then "Finance & Insurance"
  else if code2 = 53 ∨ (65 ≤ code2 ∧ code2 ≤ 67) then "Real Estate & Rental"
  else if code2 = 54 ∨ (70 ≤ code2 ∧ code2 ≤ 73) then
    "Professional, Scientific & Technical"
  else if code2 = 55 then "Management of Companies"
  else if code2 = 56 ∨ (72 ≤ code2 ∧ code2 ≤ 73) then "Admin & Support"
  else if (61 ≤ code2 ∧ code2 ≤ 62) ∨ (80 ≤ code2 ∧ code2 ≤ 89) then
    "Education & Healthcare"
  else if (71 ≤ code2 ∧ code2 ≤ 72) ∨ (78 ≤ code2 ∧ code2 ≤ 79) then
    "Arts, Entertainment & Accommodation"
  else if (81 ≤ code2 ∧ code2 ≤ 92) ∨ (90 ≤ code2 ∧ code2 ≤ 99) then
    "Other Services & Public Admin"
  else "Other / Unknown"

/-- `infer_sector(row)`: NAICS first, then SIC, else the unknown label.
A cell that is absent, NaN, or fails numeric coercion (the swallowed
`except` path) is modelled as `none`. -/
def infer_sector (naics sic : Option ℤ) : String :=
  match naics with
  | some n => sector_from_two_digit (twoDigitOf n)
  | none =>
    match sic with
    | some n => sector_from_two_digit (twoDigitOf n)
    | none => "Other / Unknown"

/-! ## Domestic Macro Stress Estimator (`get_sector_stress`,
app.py lines 87–116) and the FRED sector table -/

/-- `FRED_SECTOR_INFO`: sector label → (FRED series id, `good_high`). -/
def FRED_SECTOR_INFO : List (String × String × Bool) :=
  [("Manufacturing", "INDPRO", true),
   ("Retail Trade", "RSXFS", true),
   ("Wholesale Trade", "RSXFS", true),
   ("Finance & Insurance", "STLFSI4", false),
   ("Information", "INDPRO", true),
   ("Construction", "HOUST", true),
   ("Real Estate & Rental", "HOUST", true),
   ("Natural Resources & Mining", "IPMINE", true),
   ("Transportation & Warehousing", "TSIFRGHT", true),
   ("Education & Healthcare", "CPIMEDSL", false),
   ("Admin & Support", "UNRATE", false),
   ("Professional, Scientific & Technical", "INDPRO", true),
   ("Management of Companies", "INDPRO", true),
   ("Arts, Entertainment & Accommodation", "UNRATE", false),
   ("Other Services & Public Admin", "UNRATE", false),
   ("Utilities", "INDPRO", true)]

/-- `get_sector_stress(series_id, good_high)` with the fetch abstracted:
`fetched = none` is the `except: return 0.0` path, the inner list is the raw
series with `none` for NaN observations (removed by `dropna`), and `σ` is the
sample standard deviation `s.std()` of the cleaned series (see the header).
`s.iloc[-1]` is the last cleaned observation. -/
def get_sector_stress (fetched : Option (List (Option ℚ))) (good_high : Bool)
    (σ : ℚ) : ℚ :=
  match fetched with
  | none => 0
  | some raw =>
    let s := raw.filterMap id
    if s.length < 10 then 0
    else if σ = 0 then 0
    else
      let last := (s.getLast?).getD 0
      let z := (last - meanQ s) / σ
      let stress := if good_high then -z else z
      clampQ stress (-3) 3 * 2

/-! ## Country Stress Estimator (`wb_latest_value` /
`get_world_bank_country_stress`, app.py lines 119–198) -/

/-- One row of the intermediate `wb_df` DataFrame: the four indicator values
fetched for one country, `none` for `np.nan` ("no data"). -/
structure WBRow where
  CountryCode : String
  gdp_growth : Option ℚ
  inflation : Option ℚ
  external_debt_gni : Option ℚ
  pol_stability : Option ℚ
deriving DecidableEq

/-- Builds one `wb_df` row for country `cc`: one `wb_latest_value` call per
`WB_INDICATORS` entry, on the lower-cased code.  `wb` is the abstracted
World Bank collaborator (`wb_latest_value`), returning `none` for `np.nan`. -/
def wbRow (wb : String → String → Option ℚ) (cc : String) : WBRow :=
  { CountryCode := cc
    gdp_growth := wb (pyLower cc) "NY.GDP.MKTP.KD.ZG"
    inflation := wb (pyLower cc) "FP.CPI.TOTL.ZG"
    external_debt_gni := wb (pyLower cc) "DT.DOD.DECT.GN.ZS"
    pol_stability := wb (pyLower cc) "PV.PSAV.PT" }

/-- The `rows` list: codes that are `None` are skipped (`continue`). -/
def wbRows (wb : String → String → Option ℚ) (codes : List (Option String)) :
    List WBRow :=
  codes.filterMap (fun cc => cc.map (wbRow wb))

/-- The non-missing values of one indicator column (pandas `mean`/`std`
skip NaN). -/
def availVals (rows : List WBRow) (col : WBRow → Option ℚ) : List ℚ :=
  rows.filterMap col

/-- One entry of the z-score column `col + "_z"` for a cell `v`.
When the `std` of the column is `0` or NaN — with `ddof = 1`, NaN exactly when
fewer than two values are available — the code assigns the scalar `0.0` to
the whole column, so every row gets `some 0`, missing cells included.
Otherwise `(s - mean) / std` elementwise, with NaN cells staying NaN. -/
def zval (rows : List WBRow) (col : WBRow → Option ℚ) (σ : ℚ)
    (v : Option ℚ) : Option ℚ :=
  let a := availVals rows col
  if a.length ≤ 1 ∨ σ = 0 then some 0
  else v.map (fun x => (x - meanQ a) / σ)

/-- `WB_Stress` for one row: the fixed-weight combination of the four
z-score entries, then `clip(-3, 3) * 2.0`.  A NaN in any z entry propagates
through the sum and the clip, so the result is `none` unless all four
entries are present. -/
def wbStressRow (rows : List WBRow) (σg σi σd σp : ℚ) (r : WBRow) :
    Option ℚ :=
  match zval rows (fun x => x.gdp_growth) σg r.gdp_growth,
        zval rows (fun x => x.inflation) σi r.inflation,
        zval rows (fun x => x.external_debt_gni) σd r.external_debt_gni,
        zval rows (fun x => x.pol_stability) σp r.pol_stability with
  | some zg, some zi, some zd, some zp =>
    some (clampQ (0.3 * zi + 0.3 * zd + 0.2 * (-zg) + 0.2 * (-zp)) (-3) 3 * 2)
  | _, _, _, _ => none

/-- `get_world_bank_country_stress(country_codes)`: the returned
`CountryCode → WB_Stress` table, with `none` for a NaN stress.  `σg σi σd σp`
are the standard deviations of the four columns (see the header). -/
def get_world_bank_country_stress (codes : List (Option String))
    (wb : String → String → Option ℚ) (σg σi σd σp : ℚ) :
    List (String × Option ℚ) :=
  let rows := wbRows wb codes
  rows.map (fun r => (r.CountryCode, wbStressRow rows σg σi σd σp r))

/-- `df["CountryCode"].map(wb_map).fillna(0.0)` for one record: an
unresolved code, a code absent from the table, and a NaN stress all
become `0.0`. -/
def wbCountryRisk (table : List (String × Option ℚ)) (code : Option String) :
    ℚ :=
  match code with
  | none => 0
  | some c =>
    match lookupS table c with
    | some (some v) => v
    | some none => 0
    | none => 0

/-! ## Risk Aggregator (app.py lines 284–326) -/

/-- One input row of the client DataFrame.  `none` models a missing/NaN cell
(for `BaseRisk`, also a cell `pd.to_numeric(..., errors="coerce")` turns
into NaN); a NaN `Country` cell normalizes to `None` either way (directly via
`pd.isna`, or as the 3-character string `"nan"` after `astype(str)`). -/
structure ClientRecord where
  Client : String
  Country : Option String
  NAICS : Option ℤ
  SIC : Option ℤ
  BaseRisk : Option ℚ
deriving DecidableEq

/-- One output row: the derived columns of the scored DataFrame. -/
structure ScoredRecord where
  Client : String
  Sector : String
  CountryCode : Option String
  BaseRisk : ℚ
  Macro_Adj : ℚ
  WB_CountryRisk : ℚ
  RiskScore : ℚ
deriving DecidableEq

/-- `unique_codes`: the distinct resolved country codes of the batch
(`sorted({c for c in df["CountryCode"].unique() if c is not None})`;
the sort is dropped, see the header). -/
def batchCodes (records : List ClientRecord) : List String :=
  (records.filterMap (fun r => normalize_country_code r.Country)).dedup

/-- The `Macro_Adj` column for one record: `0.0` unless the overall FRED
snapshot succeeded (`fred_overall is not None`) and the code of the record is
`"US"`; for US records, `sector_adj` looks the sector up in
`FRED_SECTOR_INFO` (missing sectors get `0.0`) and otherwise calls
`get_sector_stress`.  `fred` is the abstracted series fetcher and `σf` the
per-series standard deviation (see the header). -/
def Macro_Adj (fredOk : Bool) (fred : String → Option (List (Option ℚ)))
    (σf : String → ℚ) (code : Option String) (sector : String) : ℚ :=
  if fredOk ∧ code = some "US" then
    match lookupS FRED_SECTOR_INFO sector with
    | some (sid, gh) => get_sector_stress (fred sid) gh (σf sid)
    | none => 0
  else 0

/-- Scores one record against the batch-level World Bank table. -/
def scoreRecord (fredOk : Bool) (fred : String → Option (List (Option ℚ)))
    (σf : String → ℚ) (table : List (String × Option ℚ))
    (r : ClientRecord) : ScoredRecord :=
  let sector := infer_sector r.NAICS r.SIC
  let code := normalize_country_code r.Country
  let base := r.BaseRisk.getD 0
  let madj := Macro_Adj fredOk fred σf code sector
  let wbr := wbCountryRisk table code
  { Client := r.Client
    Sector := sector
    CountryCode := code
    BaseRisk := base
    Macro_Adj := madj
    WB_CountryRisk := wbr
    RiskScore := base + madj + wbr }

/-- The whole scoring pass, app.py lines 296–326: derive sector and country
code, compute the World Bank stress table of the batch from the distinct resolved
codes, apply the FRED adjustment to US records, and add the three
components. -/
def scoreBatch (records : List ClientRecord) (fredOk : Bool)
    (fred : String → Option (List (Option ℚ))) (σf : String → ℚ)
    (wb : String → String → Option ℚ) (σg σi σd σp : ℚ) :
    List ScoredRecord :=
  let table := get_world_bank_country_stress ((batchCodes records).map some)
    wb σg σi σd σp
  records.map (scoreRecord fredOk fred σf table)

/-! ## Concrete instances used by witnesses and counterexamples -/

/-- A 10-observation FRED series whose sample standard deviation is the
rational 2/3 (variance 4/9) and whose latest value is 1. -/
def serW : List (Option ℚ) :=
  [some 0, some 0, some 0, some 0, some 0, some 0, some 1, some (-1),
   some (-1), some 1]

/-- A two-country batch whose inflation column is constant (variance 0). -/
def rowsV : List WBRow :=
  [⟨"AA", none, some 5, none, none⟩, ⟨"BB", none, some 5, none, none⟩]

/-- First row of `rowsU`. -/
def rowU0 : WBRow := ⟨"AA", some 0, some 0, some 0, some 0⟩

/-- A three-country batch where every indicator column is `[0, 1, 2]`
(cross-sectional sample standard deviation 1). -/
def rowsU : List WBRow :=
  [rowU0, ⟨"BB", some 1, some 1, some 1, some 1⟩,
   ⟨"CC", some 2, some 2, some 2, some 2⟩]

/-- World Bank collaborator for the missing-indicator scenario: country
`aa` has no inflation data; every other (country, indicator) pair of the
four-country batch resolves, and every indicator column has sample standard
deviation exactly 1. -/
def wbPW : String → String → Option ℚ := fun c i =>
  if i = "FP.CPI.TOTL.ZG" then
    if c = "bb" then some 0 else if c = "cc" then some 1
    else if c = "dd" then some 2 else none
  else if i = "NY.GDP.MKTP.KD.ZG" then
    if c = "aa" then some 2
    else if c = "bb" ∨ c = "cc" ∨ c = "dd" then some 0 else none
  else if i = "DT.DOD.DECT.GN.ZS" then
    if c = "aa" then some 2
    else if c = "bb" ∨ c = "cc" ∨ c = "dd" then some 0 else none
  else if i = "PV.PSAV.PT" then
    if c = "dd" then some 2
    else if c = "aa" ∨ c = "bb" ∨ c = "cc" then some 0 else none
  else none

def recA : ClientRecord := ⟨"A", some "AA", none, none, some 10⟩

/-- Four clients in countries AA–DD, scored against `wbPW`. -/
def recsW : List ClientRecord :=
  [recA, ⟨"B", some "BB", none, none, some 20⟩,
   ⟨"C", some "CC", none, none, some 30⟩,
   ⟨"D", some "DD", none, none, some 40⟩]

def rowsW : List WBRow := wbRows wbPW ((batchCodes recsW).map some)

def tableW : List (String × Option ℚ) :=
  get_world_bank_country_stress ((batchCodes recsW).map some) wbPW 1 1 1 1

/-- The scored record of client `A` in the `recsW` batch. -/
def srA : ScoredRecord := scoreRecord false (fun _ => none) (fun _ => 1) tableW recA

/-- `rowsW` evaluated: country AA misses inflation, everything else is
present; each column has sample variance exactly 1. -/
def rowsWLit : List WBRow :=
  [⟨"AA", some 2, none, some 2, some 0⟩,
   ⟨"BB", some 0, some 0, some 0, some 0⟩,
   ⟨"CC", some 0, some 1, some 0, some 0⟩,
   ⟨"DD", some 0, some 2, some 0, some 2⟩]

def recX : ClientRecord := ⟨"X", none, none, none, some (203/5)⟩

def srX : ScoredRecord :=
  scoreRecord false (fun _ => none) (fun _ => 0)
    (get_world_bank_country_stress ((batchCodes [recX]).map some)
      (fun _ _ => none) 0 0 0 0) recX

def recCN : ClientRecord := ⟨"T", some "CN", some 511210, none, some 5⟩

def srCN : ScoredRecord :=
  scoreRecord true (fun _ => none) (fun _ => 0)
    (get_world_bank_country_stress ((batchCodes [recCN]).map some)
      (fun _ _ => none) 0 0 0 0) recCN

def recAt : ClientRecord := ⟨"U", some "ATLANTIS", none, none, some 1⟩

def rsUS : List ClientRecord := [⟨"G", some "US", some 519130, none, some 35⟩]

/-! ## Helper lemmas -/

lemma le_clampQ (x : ℚ) : -3 ≤ clampQ x (-3) 3 := le_max_left _ _

lemma clampQ_le (x : ℚ) : clampQ x (-3) 3 ≤ 3 :=
  max_le (by norm_num) (min_le_right _ _)

/-- Outside 1–99 no rule of the table matches. -/
lemma sector_out_of_range (n : ℤ) (h : n < 1 ∨ 99 < n) :
    sector_from_two_digit n = "Other / Unknown" := by
  unfold sector_from_two_digit
  repeat rw [if_neg (by omega)]

/-- The four labels shadowed by earlier rules are never produced. -/
lemma sector_unreachable_aux (n : ℤ) :
    sector_from_two_digit n ≠ "Information" ∧
    sector_from_two_digit n ≠ "Real Estate & Rental" ∧
    sector_from_two_digit n ≠ "Management of Companies" ∧
    sector_from_two_digit n ≠ "Admin & Support" := by
  rcases lt_or_le n 1 with h | h1
  · rw [sector_out_of_range n (Or.inl h)]
    exact ⟨by decide, by decide, by decide, by decide⟩
  rcases le_or_lt n 99 with h2 | h2
  · interval_cases n <;> exact ⟨by decide, by decide, by decide, by decide⟩
  · rw [sector_out_of_range n (Or.inr h2)]
    exact ⟨by decide, by decide, by decide, by decide⟩

/-- C10: for every integer two-digit code (and hence every NAICS/SIC input),
the classifier never returns "Information", "Real Estate & Rental",
"Management of Companies" or "Admin & Support": each code matched by those
rules is captured by an earlier rule of the ordered first-match table. -/
theorem unreachable_sector_labels :
    (∀ n : ℤ,
      sector_from_two_digit n ≠ "Information" ∧
      sector_from_two_digit n ≠ "Real Estate & Rental" ∧
      sector_from_two_digit n ≠ "Management of Companies" ∧
      sector_from_two_digit n ≠ "Admin & Support") ∧
    (∀ naics sic : Option ℤ,
      infer_sector naics sic ≠ "Information" ∧
      infer_sector naics sic ≠ "Real Estate & Rental" ∧
      infer_sector naics sic ≠ "Management of Companies" ∧
      infer_sector naics sic ≠ "Admin & Support") := by
  refine ⟨sector_unreachable_aux, ?_⟩
  intro naics sic
  cases naics with
  | some n => simpa [infer_sector] using sector_unreachable_aux (twoDigitOf n)
  | none =>
    cases sic with
    | some n => simpa [infer_sector] using sector_unreachable_aux (twoDigitOf n)
    | none => exact ⟨by decide, by decide, by decide, by decide⟩

/-- C2 counterexample: a record with NAICS 621111 (two-digit code 62) is
classified as "Finance & Insurance", because the rule
`code2 == 52 or 60 <= code2 <= 67` precedes the Education rule
`61 <= code2 <= 62` in the first-match table — not as
"Education & Healthcare" as claimed. -/
theorem naics_621111_counterexample :
    infer_sector (some 621111) none = "Finance & Insurance" ∧
    infer_sector (some 621111) none ≠ "Education & Healthcare" := by
  constructor <;> decide

/-- C2 amended: every NAICS input whose two-digit code is 62 (in particular
621111) is classified as "Finance & Insurance" by the first matching rule
`code2 == 52 or 60 <= code2 <= 67`. -/
theorem naics_code_62_finance (naics : ℤ) (sic : Option ℤ)
    (h : twoDigitOf naics = 62) :
    infer_sector (some naics) sic = "Finance & Insurance" := by
  simp only [infer_sector, h]
  decide

theorem naics_code_62_finance_witness :
    infer_sector (some 621111) none = "Finance & Insurance" :=
  naics_code_62_finance 621111 none (by decide)

/-- C8: a fetched series with fewer than 10 non-missing observations yields
stress exactly 0, whatever the observations, the polarity flag and the
standard deviation are. -/
theorem short_series_neutral (raw : List (Option ℚ)) (good_high : Bool)
    (σ : ℚ) (h : (raw.filterMap id).length < 10) :
    get_sector_stress (some raw) good_high σ = 0 := by
  simp [get_sector_stress, h]

theorem short_series_neutral_witness :
    get_sector_stress (some [some 1, none, some 5, some (-2), some 9]) true 1
      = 0 :=
  short_series_neutral _ true 1 (by decide)

/-- With ≥ 10 observations and a nonzero standard deviation, the stress is
the clamped, scaled, polarity-signed z-score (definitional reading of the
non-degenerate branch). -/
lemma get_sector_stress_eq (raw : List (Option ℚ)) (good_high : Bool) (σ : ℚ)
    (h10 : ¬ (raw.filterMap id).length < 10) (hσne : ¬ σ = 0) :
    get_sector_stress (some raw) good_high σ =
      clampQ (if good_high then
          -((((raw.filterMap id).getLast?).getD 0 - meanQ (raw.filterMap id)) / σ)
        else
          (((raw.filterMap id).getLast?).getD 0 - meanQ (raw.filterMap id)) / σ)
        (-3) 3 * 2 := by
  simp [get_sector_stress, h10, hσne]

/-- C4: for a series with at least 10 non-missing observations whose sample
standard deviation σ (characterized by `0 ≤ σ` and `σ² = sampleVar`) is
nonzero, the domestic stress is the z-score of the latest value against the
mean and standard deviation of the full cleaned series, negated exactly when
`good_high`, clamped to [-3, 3], times 2; zero variance gives exactly 0; and
the result always lies in [-6, 6]. -/
theorem sector_stress_zscore (raw : List (Option ℚ)) (good_high : Bool) (σ : ℚ)
    (hlen : 10 ≤ (raw.filterMap id).length) (hσ0 : 0 ≤ σ)
    (hσ : σ ^ 2 = sampleVar (raw.filterMap id)) :
    (sampleVar (raw.filterMap id) ≠ 0 →
      get_sector_stress (some raw) good_high σ =
        clampQ ((if good_high then -1 else 1) *
          ((((raw.filterMap id).getLast?).getD 0 - meanQ (raw.filterMap id)) / σ))
          (-3) 3 * 2) ∧
    (sampleVar (raw.filterMap id) = 0 →
      get_sector_stress (some raw) good_high σ = 0) ∧
    -6 ≤ get_sector_stress (some raw) good_high σ ∧
    get_sector_stress (some raw) good_high σ ≤ 6 := by
  have h10 : ¬ (raw.filterMap id).length < 10 := not_lt.2 hlen
  by_cases hv : sampleVar (raw.filterMap id) = 0
  · have hz : σ = 0 := sq_eq_zero_iff.mp (by rw [hσ, hv])
    have hres : get_sector_stress (some raw) good_high σ = 0 := by
      simp [get_sector_stress, h10, hz]
    exact ⟨fun hc => absurd hv hc, fun _ => hres,
      by rw [hres]; norm_num, by rw [hres]; norm_num⟩
  · have hσne : ¬ σ = 0 := by
      intro h0
      exact hv (by rw [← hσ, h0]; ring)
    have hif : (if good_high then
          -((((raw.filterMap id).getLast?).getD 0 - meanQ (raw.filterMap id)) / σ)
        else
          (((raw.filterMap id).getLast?).getD 0 - meanQ (raw.filterMap id)) / σ) =
        (if good_high then (-1 : ℚ) else 1) *
          ((((raw.filterMap id).getLast?).getD 0 - meanQ (raw.filterMap id)) / σ) := by
      cases good_high <;> simp
    have hres := get_sector_stress_eq raw good_high σ h10 hσne
    rw [hif] at hres
    refine ⟨fun _ => hres, fun hc => absurd hc hv, ?_, ?_⟩
    · rw [hres]
      have := le_clampQ ((if good_high then (-1 : ℚ) else 1) *
        ((((raw.filterMap id).getLast?).getD 0 - meanQ (raw.filterMap id)) / σ))
      linarith
    · rw [hres]
      have := clampQ_le ((if good_high then (-1 : ℚ) else 1) *
        ((((raw.filterMap id).getLast?).getD 0 - meanQ (raw.filterMap id)) / σ))
      linarith

theorem sector_stress_zscore_witness :
    get_sector_stress (some serW) false (2/3) =
      clampQ ((if false then -1 else 1) *
        ((((serW.filterMap id).getLast?).getD 0 - meanQ (serW.filterMap id)) /
          (2/3))) (-3) 3 * 2 :=
  (sector_stress_zscore serW false (2/3) (by decide) (by norm_num)
    (by norm_num [serW, sampleVar, meanQ, List.filterMap_cons])).1
    (by norm_num [serW, sampleVar, meanQ, List.filterMap_cons])

/-- C9: when an indicator column has fewer than two available values (its
cross-sectional standard deviation is undefined/NaN) or its sample standard
deviation is zero, the z-score entry of that indicator is exactly 0 for
every country row in the batch. -/
theorem zero_variance_zcol (rows : List WBRow) (col : WBRow → Option ℚ)
    (σ : ℚ)
    (h : (availVals rows col).length ≤ 1 ∨
      (0 ≤ σ ∧ σ ^ 2 = sampleVar (availVals rows col) ∧
        sampleVar (availVals rows col) = 0)) :
    ∀ r ∈ rows, zval rows col σ (col r) = some 0 := by
  intro r _
  rcases h with h | ⟨_, hσ, hv⟩
  · simp only [zval]
    rw [if_pos (Or.inl h)]
  · have hz : σ = 0 := sq_eq_zero_iff.mp (by rw [hσ, hv])
    simp only [zval]
    rw [if_pos (Or.inr hz)]

theorem zero_variance_zcol_witness :
    zval rowsV (fun x => x.inflation) 0 (some 5) = some 0 :=
  zero_variance_zcol rowsV (fun x => x.inflation) 0
    (Or.inr ⟨le_refl 0,
      by norm_num [rowsV, availVals, sampleVar, meanQ, List.filterMap_cons],
      by norm_num [rowsV, availVals, sampleVar, meanQ, List.filterMap_cons]⟩)
    ⟨"AA", none, some 5, none, none⟩ (List.mem_cons_self _ _)

/-- The weight arrangement `0.2 * (-z)` of the code equals `- 0.2 * z` of the spec. -/
lemma combineArr (a b c d : ℚ) :
    0.3 * b + 0.3 * c + 0.2 * (-a) + 0.2 * (-d) =
      0.3 * b + 0.3 * c - 0.2 * a - 0.2 * d := by ring

/-- One z-column entry in the non-degenerate case: at least two available
values and nonzero standard deviation give the elementwise z-score. -/
lemma zval_eq (rows : List WBRow) (col : WBRow → Option ℚ) (σ : ℚ) (v : ℚ)
    (hl : 2 ≤ (availVals rows col).length) (hne : ¬ σ = 0) :
    zval rows col σ (some v) = some ((v - meanQ (availVals rows col)) / σ) := by
  simp only [zval]
  rw [if_neg (by push_neg; exact ⟨by omega, hne⟩)]
  rfl

/-- C5: for a country row with all four indicator values available, when
every indicator column has at least two available values and nonzero sample
standard deviation (σ characterized as the nonnegative square root of the
cross-sectional sample variance), the final stress is
`clamp(0.3·inflation_z + 0.3·external_debt_z − 0.2·growth_z
− 0.2·pol_stability_z, -3, 3) · 2`, with each z-score taken against that
cross-sectional mean and standard deviation of that column. -/
theorem country_stress_weights (rows : List WBRow) (σg σi σd σp : ℚ)
    (r : WBRow) (vg vi vd vp : ℚ)
    (hvg : r.gdp_growth = some vg) (hvi : r.inflation = some vi)
    (hvd : r.external_debt_gni = some vd) (hvp : r.pol_stability = some vp)
    (hg : 2 ≤ (availVals rows (fun x => x.gdp_growth)).length ∧ 0 ≤ σg ∧
      σg ^ 2 = sampleVar (availVals rows (fun x => x.gdp_growth)) ∧
      sampleVar (availVals rows (fun x => x.gdp_growth)) ≠ 0)
    (hi : 2 ≤ (availVals rows (fun x => x.inflation)).length ∧ 0 ≤ σi ∧
      σi ^ 2 = sampleVar (availVals rows (fun x => x.inflation)) ∧
      sampleVar (availVals rows (fun x => x.inflation)) ≠ 0)
    (hd : 2 ≤ (availVals rows (fun x => x.external_debt_gni)).length ∧
      0 ≤ σd ∧
      σd ^ 2 = sampleVar (availVals rows (fun x => x.external_debt_gni)) ∧
      sampleVar (availVals rows (fun x => x.external_debt_gni)) ≠ 0)
    (hp : 2 ≤ (availVals rows (fun x => x.pol_stability)).length ∧ 0 ≤ σp ∧
      σp ^ 2 = sampleVar (availVals rows (fun x => x.pol_stability)) ∧
      sampleVar (availVals rows (fun x => x.pol_stability)) ≠ 0) :
    wbStressRow rows σg σi σd σp r =
      some (clampQ
        (0.3 * ((vi - meanQ (availVals rows (fun x => x.inflation))) / σi) +
         0.3 * ((vd - meanQ (availVals rows (fun x => x.external_debt_gni))) / σd) -
         0.2 * ((vg - meanQ (availVals rows (fun x => x.gdp_growth))) / σg) -
         0.2 * ((vp - meanQ (availVals rows (fun x => x.pol_stability))) / σp))
        (-3) 3 * 2) := by
  obtain ⟨hgl, _, hgσ, hgv⟩ := hg
  obtain ⟨hil, _, hiσ, hiv⟩ := hi
  obtain ⟨hdl, _, hdσ, hdv⟩ := hd
  obtain ⟨hpl, _, hpσ, hpv⟩ := hp
  have hgne : ¬ σg = 0 := fun h0 => hgv (by rw [← hgσ, h0]; ring)
  have hine : ¬ σi = 0 := fun h0 => hiv (by rw [← hiσ, h0]; ring)
  have hdne : ¬ σd = 0 := fun h0 => hdv (by rw [← hdσ, h0]; ring)
  have hpne : ¬ σp = 0 := fun h0 => hpv (by rw [← hpσ, h0]; ring)
  have zg := zval_eq rows (fun x => x.gdp_growth) σg vg hgl hgne
  have zi := zval_eq rows (fun x => x.inflation) σi vi hil hine
  have zd := zval_eq rows (fun x => x.external_debt_gni) σd vd hdl hdne
  have zp := zval_eq rows (fun x => x.pol_stability) σp vp hpl hpne
  simp only [wbStressRow, hvg, hvi, hvd, hvp, zg, zi, zd, zp, combineArr]

theorem country_stress_weights_witness :
    wbStressRow rowsU 1 1 1 1 rowU0 =
      some (clampQ
        (0.3 * ((0 - meanQ (availVals rowsU (fun x => x.inflation))) / 1) +
         0.3 * ((0 - meanQ (availVals rowsU (fun x => x.external_debt_gni))) / 1) -
         0.2 * ((0 - meanQ (availVals rowsU (fun x => x.gdp_growth))) / 1) -
         0.2 * ((0 - meanQ (availVals rowsU (fun x => x.pol_stability))) / 1))
        (-3) 3 * 2) :=
  country_stress_weights rowsU 1 1 1 1 rowU0 0 0 0 0 rfl rfl rfl rfl
    ⟨by decide, by norm_num, by
      norm_num [rowsU, rowU0, availVals, sampleVar, meanQ, List.filterMap_cons],
      by norm_num [rowsU, rowU0, availVals, sampleVar, meanQ,
        List.filterMap_cons]⟩
    ⟨by decide, by norm_num, by
      norm_num [rowsU, rowU0, availVals, sampleVar, meanQ, List.filterMap_cons],
      by norm_num [rowsU, rowU0, availVals, sampleVar, meanQ,
        List.filterMap_cons]⟩
    ⟨by decide, by norm_num, by
      norm_num [rowsU, rowU0, availVals, sampleVar, meanQ, List.filterMap_cons],
      by norm_num [rowsU, rowU0, availVals, sampleVar, meanQ,
        List.filterMap_cons]⟩
    ⟨by decide, by norm_num, by
      norm_num [rowsU, rowU0, availVals, sampleVar, meanQ, List.filterMap_cons],
      by norm_num [rowsU, rowU0, availVals, sampleVar, meanQ,
        List.filterMap_cons]⟩

/-- Every scored record comes from scoring an input record against the
World Bank table of the batch. -/
lemma mem_scoreBatch (records : List ClientRecord) (fredOk : Bool)
    (fred : String → Option (List (Option ℚ))) (σf : String → ℚ)
    (wb : String → String → Option ℚ) (σg σi σd σp : ℚ) (sr : ScoredRecord)
    (hmem : sr ∈ scoreBatch records fredOk fred σf wb σg σi σd σp) :
    ∃ r ∈ records, sr = scoreRecord fredOk fred σf
      (get_world_bank_country_stress ((batchCodes records).map some)
        wb σg σi σd σp) r := by
  simp only [scoreBatch, List.mem_map] at hmem
  obtain ⟨r, hr, heq⟩ := hmem
  exact ⟨r, hr, heq.symm⟩

/-- C1: for every record of a scored batch,
`RiskScore = BaseRisk + Macro_Adj + WB_CountryRisk` holds exactly; the
aggregation applies no clamping or rounding of its own, whatever the input
components (in particular an out-of-range `BaseRisk`) are. -/
theorem riskscore_additive (records : List ClientRecord) (fredOk : Bool)
    (fred : String → Option (List (Option ℚ))) (σf : String → ℚ)
    (wb : String → String → Option ℚ) (σg σi σd σp : ℚ) (sr : ScoredRecord)
    (hmem : sr ∈ scoreBatch records fredOk fred σf wb σg σi σd σp) :
    sr.RiskScore = sr.BaseRisk + sr.Macro_Adj + sr.WB_CountryRisk := by
  obtain ⟨r, _, rfl⟩ :=
    mem_scoreBatch records fredOk fred σf wb σg σi σd σp sr hmem
  rfl

theorem riskscore_additive_witness :
    srX.RiskScore = srX.BaseRisk + srX.Macro_Adj + srX.WB_CountryRisk :=
  riskscore_additive [recX] false (fun _ => none) (fun _ => 0)
    (fun _ _ => none) 0 0 0 0 srX
    (by
      simp only [scoreBatch, srX]
      exact List.mem_map_of_mem _ (List.mem_cons_self _ _))

/-- C6: a scored record whose normalized country code is not `"US"` has
`Macro_Adj` exactly 0, whatever its sector or base risk and whatever the
state of the FRED collaborator. -/
theorem nondomestic_zero_adjustment (records : List ClientRecord)
    (fredOk : Bool) (fred : String → Option (List (Option ℚ)))
    (σf : String → ℚ) (wb : String → String → Option ℚ) (σg σi σd σp : ℚ)
    (sr : ScoredRecord)
    (hmem : sr ∈ scoreBatch records fredOk fred σf wb σg σi σd σp)
    (hcc : sr.CountryCode ≠ some "US") :
    sr.Macro_Adj = 0 := by
  obtain ⟨r, _, rfl⟩ :=
    mem_scoreBatch records fredOk fred σf wb σg σi σd σp sr hmem
  have hcc2 : normalize_country_code r.Country ≠ some "US" := hcc
  show Macro_Adj fredOk fred σf (normalize_country_code r.Country)
    (infer_sector r.NAICS r.SIC) = 0
  unfold Macro_Adj
  rw [if_neg (fun h => hcc2 h.2)]

theorem nondomestic_zero_adjustment_witness : srCN.Macro_Adj = 0 :=
  nondomestic_zero_adjustment [recCN] true (fun _ => none) (fun _ => 0)
    (fun _ _ => none) 0 0 0 0 srCN
    (by
      simp only [scoreBatch, srCN]
      exact List.mem_map_of_mem _ (List.mem_cons_self _ _))
    (by decide)

/-- C7: a record whose country text does not normalize contributes
`WB_CountryRisk = 0`, and its country is excluded from the cross-sectional
computation: the rest of the batch is scored exactly as if the country of
the record were absent (the code set of the batch, hence every indicator mean and
standard deviation, is unchanged). -/
theorem unresolved_country_excluded (r0 : ClientRecord)
    (rs : List ClientRecord) (fredOk : Bool)
    (fred : String → Option (List (Option ℚ))) (σf : String → ℚ)
    (wb : String → String → Option ℚ) (σg σi σd σp : ℚ)
    (h : normalize_country_code r0.Country = none) :
    ∃ sr : ScoredRecord, sr.CountryCode = none ∧ sr.WB_CountryRisk = 0 ∧
      scoreBatch (r0 :: rs) fredOk fred σf wb σg σi σd σp =
        sr :: scoreBatch rs fredOk fred σf wb σg σi σd σp := by
  have hcodes : batchCodes (r0 :: rs) = batchCodes rs := by
    simp [batchCodes, List.filterMap_cons, h]
  refine ⟨scoreRecord fredOk fred σf
      (get_world_bank_country_stress ((batchCodes rs).map some)
        wb σg σi σd σp) r0, ?_, ?_, ?_⟩
  · show normalize_country_code r0.Country = none
    exact h
  · show wbCountryRisk _ (normalize_country_code r0.Country) = 0
    rw [h]
    rfl
  · simp only [scoreBatch, hcodes, List.map_cons]

theorem unresolved_country_excluded_witness :
    ∃ sr : ScoredRecord, sr.CountryCode = none ∧ sr.WB_CountryRisk = 0 ∧
      scoreBatch (recAt :: rsUS) false (fun _ => none) (fun _ => 0)
        (fun _ _ => none) 0 0 0 0 =
        sr :: scoreBatch rsUS false (fun _ => none) (fun _ => 0)
          (fun _ _ => none) 0 0 0 0 :=
  unresolved_country_excluded recAt rsUS false (fun _ => none) (fun _ => 0)
    (fun _ _ => none) 0 0 0 0 (by decide)

/-- Skipping `None` codes over an all-`some` list is a plain map. -/
lemma wbRows_map_some (wb : String → String → Option ℚ) (l : List String) :
    wbRows wb (l.map some) = l.map (wbRow wb) := by
  unfold wbRows
  induction l with
  | nil => rfl
  | cons c t ih =>
    simp only [List.map_cons, List.filterMap_cons, Option.map_some']
    rw [ih]

/-- Looking a present key up in a key-indexed map table. -/
lemma lookupS_map_self {β : Type} (l : List String) (g : String → β)
    (c : String) (h : c ∈ l) :
    lookupS (l.map (fun x => (x, g x))) c = some (g c) := by
  induction l with
  | nil => cases h
  | cons a t ih =>
    simp only [List.map_cons, lookupS]
    by_cases hac : a = c
    · subst hac
      rw [if_pos rfl]
    · rw [if_neg hac]
      rcases List.mem_cons.mp h with h1 | h1
      · exact absurd h1.symm hac
      · exact ih h1

/-- A missing cell in a column whose std is defined and nonzero keeps NaN
through the z-score assignment. -/
lemma zval_none (rows : List WBRow) (col : WBRow → Option ℚ) (σ : ℚ)
    (hl : 2 ≤ (availVals rows col).length) (hne : ¬ σ = 0) :
    zval rows col σ none = none := by
  simp only [zval]
  rw [if_neg (by push_neg; exact ⟨by omega, hne⟩)]
  rfl

/-- A NaN in any z-score entry propagates: `WB_Stress` is NaN. -/
lemma wbStressRow_none (rows : List WBRow) (σg σi σd σp : ℚ) (r : WBRow)
    (h : zval rows (fun x => x.gdp_growth) σg r.gdp_growth = none ∨
      zval rows (fun x => x.inflation) σi r.inflation = none ∨
      zval rows (fun x => x.external_debt_gni) σd r.external_debt_gni = none ∨
      zval rows (fun x => x.pol_stability) σp r.pol_stability = none) :
    wbStressRow rows σg σi σd σp r = none := by
  unfold wbStressRow
  cases h1 : zval rows (fun x => x.gdp_growth) σg r.gdp_growth <;>
    cases h2 : zval rows (fun x => x.inflation) σi r.inflation <;>
      cases h3 : zval rows (fun x => x.external_debt_gni) σd
          r.external_debt_gni <;>
        cases h4 : zval rows (fun x => x.pol_stability) σp r.pol_stability <;>
          simp_all

/-- A table entry holding NaN maps to 0 downstream (`fillna(0.0)`). -/
lemma wbCountryRisk_lookup_none (table : List (String × Option ℚ))
    (c : String) (h : lookupS table c = some none) :
    wbCountryRisk table (some c) = 0 := by
  simp only [wbCountryRisk, h]

/-- C3 amended: when the provider has no data on one indicator for a
country whose column otherwise has at least two available values and a
nonzero standard deviation, the NaN propagates through the weighted z-score
sum, so the *entire* combined stress of that country becomes "no data" and its
`WB_CountryRisk` is degraded to 0 downstream — not just the missing
term of the missing indicator; the batch itself is never aborted (every record is still
scored). -/
theorem missing_indicator_zeroes_country (records : List ClientRecord)
    (fredOk : Bool) (fred : String → Option (List (Option ℚ)))
    (σf : String → ℚ) (wb : String → String → Option ℚ) (σg σi σd σp : ℚ)
    (sr : ScoredRecord) (cc : String)
    (hmem : sr ∈ scoreBatch records fredOk fred σf wb σg σi σd σp)
    (hcc : sr.CountryCode = some cc)
    (hmiss :
      (wb (pyLower cc) "NY.GDP.MKTP.KD.ZG" = none ∧
        2 ≤ (availVals (wbRows wb ((batchCodes records).map some))
          (fun x => x.gdp_growth)).length ∧ ¬ σg = 0) ∨
      (wb (pyLower cc) "FP.CPI.TOTL.ZG" = none ∧
        2 ≤ (availVals (wbRows wb ((batchCodes records).map some))
          (fun x => x.inflation)).length ∧ ¬ σi = 0) ∨
      (wb (pyLower cc) "DT.DOD.DECT.GN.ZS" = none ∧
        2 ≤ (availVals (wbRows wb ((batchCodes records).map some))
          (fun x => x.external_debt_gni)).length ∧ ¬ σd = 0) ∨
      (wb (pyLower cc) "PV.PSAV.PT" = none ∧
        2 ≤ (availVals (wbRows wb ((batchCodes records).map some))
          (fun x => x.pol_stability)).length ∧ ¬ σp = 0)) :
    sr.WB_CountryRisk = 0 ∧
    (scoreBatch records fredOk fred σf wb σg σi σd σp).length =
      records.length := by
  constructor
  · obtain ⟨r, hr, rfl⟩ :=
      mem_scoreBatch records fredOk fred σf wb σg σi σd σp sr hmem
    have hcode : normalize_country_code r.Country = some cc := hcc
    have hmemc : cc ∈ batchCodes records := by
      simp only [batchCodes]
      exact List.mem_dedup.mpr (List.mem_filterMap.mpr ⟨r, hr, hcode⟩)
    have hrowseq : wbRows wb ((batchCodes records).map some) =
        (batchCodes records).map (wbRow wb) := wbRows_map_some wb _
    rw [hrowseq] at hmiss
    have hnone : wbStressRow ((batchCodes records).map (wbRow wb))
        σg σi σd σp (wbRow wb cc) = none := by
      apply wbStressRow_none
      rcases hmiss with ⟨hm, hl, hs⟩ | ⟨hm, hl, hs⟩ | ⟨hm, hl, hs⟩ | ⟨hm, hl, hs⟩
      · refine Or.inl ?_
        have hv : (wbRow wb cc).gdp_growth = none := hm
        rw [hv]
        exact zval_none _ _ _ hl hs
      · refine Or.inr (Or.inl ?_)
        have hv : (wbRow wb cc).inflation = none := hm
        rw [hv]
        exact zval_none _ _ _ hl hs
      · refine Or.inr (Or.inr (Or.inl ?_))
        have hv : (wbRow wb cc).external_debt_gni = none := hm
        rw [hv]
        exact zval_none _ _ _ hl hs
      · refine Or.inr (Or.inr (Or.inr ?_))
        have hv : (wbRow wb cc).pol_stability = none := hm
        rw [hv]
        exact zval_none _ _ _ hl hs
    have htab : get_world_bank_country_stress ((batchCodes records).map some)
        wb σg σi σd σp =
        (batchCodes records).map (fun c =>
          (c, wbStressRow ((batchCodes records).map (wbRow wb)) σg σi σd σp
            (wbRow wb c))) := by
      simp only [get_world_bank_country_stress]
      rw [hrowseq, List.map_map]
      rfl
    have hlook := lookupS_map_self (batchCodes records)
      (fun c => wbStressRow ((batchCodes records).map (wbRow wb)) σg σi σd σp
        (wbRow wb c)) cc hmemc
    show wbCountryRisk _ (normalize_country_code r.Country) = 0
    rw [hcode, htab]
    apply wbCountryRisk_lookup_none
    rw [hlook]
    exact congrArg some hnone
  · simp [scoreBatch]

theorem missing_indicator_zeroes_country_witness :
    srA.WB_CountryRisk = 0 ∧
    (scoreBatch recsW false (fun _ => none) (fun _ => 1) wbPW 1 1 1 1).length =
      recsW.length :=
  missing_indicator_zeroes_country recsW false (fun _ => none) (fun _ => 1)
    wbPW 1 1 1 1 srA "AA"
    (by
      simp only [scoreBatch, srA, tableW]
      exact List.mem_map_of_mem _ (by simp [recsW]))
    (by decide)
    (Or.inr (Or.inl ⟨by decide, by decide, by norm_num⟩))

/-- C3 counterexample: in the `recsW` batch, country AA misses only the
inflation value; every indicator column has sample standard deviation 1
(legitimizing the σ arguments of `tableW`), so the claim predicts for AA the
weighted sum of its three remaining z-score terms — which evaluates to 1/2 —
while the code degrades the whole stress of AA to NaN and its downstream
`WB_CountryRisk` to 0 ≠ 1/2. -/
theorem missing_indicator_counterexample :
    wbCountryRisk tableW (some "AA") = 0 ∧
    clampQ (0.3 * 0 +
        0.3 * ((2 - meanQ (availVals rowsW (fun x => x.external_debt_gni))) / 1) -
        0.2 * ((2 - meanQ (availVals rowsW (fun x => x.gdp_growth))) / 1) -
        0.2 * ((0 - meanQ (availVals rowsW (fun x => x.pol_stability))) / 1))
      (-3) 3 * 2 = 1/2 ∧
    (1:ℚ)/2 ≠ 0 ∧
    (1:ℚ) ^ 2 = sampleVar (availVals rowsW (fun x => x.inflation)) ∧
    (1:ℚ) ^ 2 = sampleVar (availVals rowsW (fun x => x.gdp_growth)) ∧
    (1:ℚ) ^ 2 = sampleVar (availVals rowsW (fun x => x.external_debt_gni)) ∧
    (1:ℚ) ^ 2 = sampleVar (availVals rowsW (fun x => x.pol_stability)) := by
  have hrw : rowsW = rowsWLit := by decide
  refine ⟨?_, ?_, by norm_num, ?_, ?_, ?_, ?_⟩
  · have htw : tableW =
        rowsW.map (fun r => (r.CountryCode, wbStressRow rowsW 1 1 1 1 r)) :=
      rfl
    rw [htw, hrw]
    apply wbCountryRisk_lookup_none
    simp only [rowsWLit, List.map_cons, List.map_nil, lookupS, if_true]
    refine congrArg some ?_
    apply wbStressRow_none
    refine Or.inr (Or.inl ?_)
    show zval rowsWLit (fun x => x.inflation) 1 none = none
    exact zval_none _ _ _ (by decide) (by norm_num)
  · rw [hrw]
    norm_num [rowsWLit, availVals, meanQ, List.filterMap_cons, clampQ,
      max_def, min_def]
  · rw [hrw]
    norm_num [rowsWLit, availVals, sampleVar, meanQ, List.filterMap_cons]
  · rw [hrw]
    norm_num [rowsWLit, availVals, sampleVar, meanQ, List.filterMap_cons]
  · rw [hrw]
    norm_num [rowsWLit, availVals, sampleVar, meanQ, List.filterMap_cons]
  · rw [hrw]
    norm_num [rowsWLit, availVals, sampleVar, meanQ, List.filterMap_cons]
